import Mathlib

/-!
Verification of `refinedet/links/model/ssd_vgg16.py` (RefineDet_chainer).

The file embeds the module's pretrained-model validation and loading logic
(`_check_pretrained_model`, `_load_npz`, the five constructor classes and
their `_models` tables) and the symbolic forward passes of `VGG16RefineDet`
and `VGG16Extractor320`, and proves the specified properties about them.

Python values are embedded as follows: an `int`-or-`None` argument becomes
`Option Nat`, a `str`-or-`None` argument becomes `Option String`, Python
truthiness on these becomes `truthyNat` / `truthyStr`, an exception becomes
the `Except` error case, and the externally observable actions (downloading
a weight file, deserializing an npz file into the model) are recorded as an
explicit effect list in the order the code performs them.
-/

/-- One entry of a `_models` table: the fixed foreground-class count
(`None` for the imagenet entries) and the weight-file URL. -/
structure ModelEntry where
  n_fg_class : Option Nat
  url : String
deriving DecidableEq, Repr

/-- A `_models` table: an association of string keys to entries
(Python dict with string keys). -/
abbrev Models := List (String × ModelEntry)

/-- Where a weight file comes from: `download_model(url)` or a local path. -/
inductive PathSrc where
  | downloaded (url : String)
  | localFile (p : String)
deriving DecidableEq, Repr

/-- The exceptions the constructors can raise: `ValueError` with its message
(from `_check_pretrained_model`), or the `TypeError` Python raises when
`n_fg_class + 1` is evaluated with `n_fg_class` still `None`. -/
inductive PyError where
  | valueError (msg : String)
  | typeError
deriving DecidableEq, Repr

/-- Externally observable actions of construction, in program order. -/
inductive Effect where
  | download (url : String)
  | loadNpz (path : PathSrc)
deriving DecidableEq, Repr

instance {ε α : Type} [DecidableEq ε] [DecidableEq α] : DecidableEq (Except ε α) := fun a b =>
  match a, b with
  | Except.ok x, Except.ok y =>
    if h : x = y then isTrue (by rw [h]) else isFalse (by intro hc; cases hc; exact h rfl)
  | Except.error e, Except.error f =>
    if h : e = f then isTrue (by rw [h]) else isFalse (by intro hc; cases hc; exact h rfl)
  | Except.ok _, Except.error _ => isFalse (by intro hc; cases hc)
  | Except.error _, Except.ok _ => isFalse (by intro hc; cases hc)

/-- Python truthiness of an `int`-or-`None` value: `None` and `0` are falsy. -/
def truthyNat : Option Nat → Bool
  | none => false
  | some n => n != 0

/-- Python truthiness of a `str`-or-`None` value: `None` and `''` are falsy. -/
def truthyStr : Option String → Bool
  | none => false
  | some s => s != ""

/-- Embedding of `_check_pretrained_model(n_fg_class, pretrained_model, models)`.

Returns the result of the call (the resolved `n_fg_class` and the weight
path, or the raised exception) together with the list of effects performed
before returning or raising.  `pretrained_model in models` is a key lookup
(`None` is never a key); the raise statements come before the
`download_model` call, exactly as in the source. -/
def _check_pretrained_model (n_fg_class : Option Nat) (pretrained_model : Option String)
    (models : Models) : Except PyError (Option Nat × Option PathSrc) × List Effect :=
  match pretrained_model with
  | some key =>
    match models.lookup key with
    | some model =>
      if truthyNat n_fg_class then
        if truthyNat model.n_fg_class && !(n_fg_class == model.n_fg_class) then
          (Except.error (PyError.valueError
            ("n_fg_class should be " ++ toString (model.n_fg_class.getD 0))), [])
        else
          (Except.ok (n_fg_class, some (PathSrc.downloaded model.url)),
            [Effect.download model.url])
      else
        if !truthyNat model.n_fg_class then
          (Except.error (PyError.valueError "n_fg_class must be specified"), [])
        else
          (Except.ok (model.n_fg_class, some (PathSrc.downloaded model.url)),
            [Effect.download model.url])
    | none =>
      if truthyStr (some key) then
        (Except.ok (n_fg_class, some (PathSrc.localFile key)), [])
      else
        (Except.ok (n_fg_class, none), [])
  | none => (Except.ok (n_fg_class, none), [])

/-- Outcome of a successful constructor call: the `n_class` passed to the
multibox head (`n_fg_class + 1`) and the weight file loaded, if any. -/
structure InitResult where
  n_class : Nat
  loaded : Option PathSrc
deriving DecidableEq, Repr

/-- Embedding of the shared `__init__` body of the five model classes
(`SSD300Plus`, `DSSD300`, `ESSD300Plus`, `ESSD300`, `RefineDet320`),
parameterized by the class's `_models` table: run
`_check_pretrained_model`, build the model with `n_class = n_fg_class + 1`
(a `TypeError` if `n_fg_class` is still `None`), then
`if path: _load_npz(path, self)`. -/
def initModel (models : Models) (n_fg_class : Option Nat) (pretrained_model : Option String) :
    Except PyError InitResult × List Effect :=
  match _check_pretrained_model n_fg_class pretrained_model models with
  | (Except.error e, effs) => (Except.error e, effs)
  | (Except.ok (n, path), effs) =>
    match n with
    | none => (Except.error PyError.typeError, effs)
    | some k =>
      match path with
      | some p => (Except.ok ⟨k + 1, some p⟩, effs ++ [Effect.loadNpz p])
      | none => (Except.ok ⟨k + 1, none⟩, effs)

/-- `SSD300Plus._models`. -/
def ssd300plus_models : Models :=
  [("voc0712", ⟨some 20,
      "https://github.com/yuyu2172/share-weights/releases/download/0.0.3/ssd300_voc0712_2017_06_06.npz"⟩),
   ("imagenet", ⟨none,
      "https://github.com/yuyu2172/share-weights/releases/download/0.0.3/ssd_vgg16_imagenet_2017_06_09.npz"⟩)]

/-- `DSSD300._models`. -/
def dssd300_models : Models :=
  [("voc0712", ⟨some 20,
      "https://github.com/yuyu2172/share-weights/releases/download/0.0.3/ssd300_voc0712_2017_06_06.npz"⟩),
   ("imagenet", ⟨none,
      "https://github.com/yuyu2172/share-weights/releases/download/0.0.3/ssd_vgg16_imagenet_2017_06_09.npz"⟩)]

/-- `ESSD300Plus._models` (its `voc0712` entry is commented out in the source). -/
def essd300plus_models : Models :=
  [("imagenet", ⟨none,
      "https://github.com/yuyu2172/share-weights/releases/download/0.0.3/ssd_vgg16_imagenet_2017_06_09.npz"⟩)]

/-- `ESSD300._models` (its `voc0712` entry is commented out in the source). -/
def essd300_models : Models :=
  [("imagenet", ⟨none,
      "https://github.com/yuyu2172/share-weights/releases/download/0.0.3/ssd_vgg16_imagenet_2017_06_09.npz"⟩)]

/-- `RefineDet320._models` (its `voc0712` entry is commented out in the source). -/
def refinedet320_models : Models :=
  [("imagenet", ⟨none,
      "https://github.com/fukatani/RefineDet_chainer/releases/download/0.0.0/VGG_ILSVRC_16_layers_fc_reduced.npz"⟩)]

/-- The `_models` tables of the five constructor classes, in source order. -/
def allModelTables : List Models :=
  [ssd300plus_models, dssd300_models, essd300plus_models, essd300_models, refinedet320_models]

/-- `SSD300Plus.__init__`. -/
def SSD300Plus_init (n_fg_class : Option Nat) (pretrained_model : Option String) :=
  initModel ssd300plus_models n_fg_class pretrained_model

/-- `DSSD300.__init__`. -/
def DSSD300_init (n_fg_class : Option Nat) (pretrained_model : Option String) :=
  initModel dssd300_models n_fg_class pretrained_model

/-- `ESSD300Plus.__init__`. -/
def ESSD300Plus_init (n_fg_class : Option Nat) (pretrained_model : Option String) :=
  initModel essd300plus_models n_fg_class pretrained_model

/-- `ESSD300.__init__`. -/
def ESSD300_init (n_fg_class : Option Nat) (pretrained_model : Option String) :=
  initModel essd300_models n_fg_class pretrained_model

/-- `RefineDet320.__init__`. -/
def RefineDet320_init (n_fg_class : Option Nat) (pretrained_model : Option String) :=
  initModel refinedet320_models n_fg_class pretrained_model

/-- Modelled from the spec: `chainer.serializers.NpzDeserializer` is external
library code, not part of this repository; per the spec it loads a checkpoint
(named numeric arrays) into a target object's named parameters by matching
names.  With `strict = true` a target name missing from the checkpoint is an
error; with `strict = false` such a name is skipped and the target keeps its
previous value; checkpoint names matching no target parameter are ignored. -/
def npzDeserializerLoad (strict : Bool) (ckpt : List (String × List Int))
    (obj : List (String × List Int)) : Option (List (String × List Int)) :=
  match obj with
  | [] => some []
  | p :: rest =>
    match npzDeserializerLoad strict ckpt rest with
    | none => none
    | some r =>
      match ckpt.lookup p.1 with
      | some v => some ((p.1, v) :: r)
      | none => if strict then none else some (p :: r)

/-- Embedding of `_load_npz(filename, obj)`: deserialize the npz archive into
`obj` with `strict=False` — "to skip unsaved parameters", per the source
comment. -/
def _load_npz (ckpt : List (String × List Int)) (obj : List (String × List Int)) :
    Option (List (String × List Int)) :=
  npzDeserializerLoad false ckpt obj

/-- Symbolic feature maps: the expression a forward pass builds from the
input batch.  A `conv` node records which convolution link of the chain is
applied (dilated convolutions are links like any other and keep their
names); `maxPool2d` records ksize, stride and pad; `normalize` records
which `Normalize` link is applied. -/
inductive Feat where
  | input
  | conv (layer : String) (x : Feat)
  | relu (x : Feat)
  | maxPool2d (ksize stride pad : Nat) (x : Feat)
  | normalize (layer : String) (x : Feat)
deriving DecidableEq, Repr

/-- Embedding of `VGG16RefineDet.__call__(self, x)`: the `ys` list is built
by the three `ys.append(...)` statements, in program order.
`F.max_pooling_2d(h, 2)` defaults to stride = ksize and pad = 0. -/
def vgg16RefineDet_call (x : Feat) : List Feat :=
  let ys : List Feat := []
  let h := Feat.relu (Feat.conv "conv1_1" x)
  let h := Feat.relu (Feat.conv "conv1_2" h)
  let h := Feat.maxPool2d 2 2 0 h
  let h := Feat.relu (Feat.conv "conv2_1" h)
  let h := Feat.relu (Feat.conv "conv2_2" h)
  let h := Feat.maxPool2d 2 2 0 h
  let h := Feat.relu (Feat.conv "conv3_1" h)
  let h := Feat.relu (Feat.conv "conv3_2" h)
  let h := Feat.relu (Feat.conv "conv3_3" h)
  let h := Feat.maxPool2d 2 2 0 h
  let h := Feat.relu (Feat.conv "conv4_1" h)
  let h := Feat.relu (Feat.conv "conv4_2" h)
  let h := Feat.relu (Feat.conv "conv4_3" h)
  let ys := ys ++ [Feat.normalize "norm4" h]
  let h := Feat.maxPool2d 2 2 0 h
  let h := Feat.relu (Feat.conv "conv5_1" h)
  let h := Feat.relu (Feat.conv "conv5_2" h)
  let h := Feat.relu (Feat.conv "conv5_3" h)
  let ys := ys ++ [Feat.normalize "norm4" h]
  let h := Feat.maxPool2d 2 2 0 h
  let h := Feat.relu (Feat.conv "conv6" h)
  let h := Feat.relu (Feat.conv "conv7" h)
  let ys := ys ++ [h]
  ys

/-- `VGG16Extractor320.insize`. -/
def VGG16Extractor320_insize : Nat := 320

/-- `VGG16Extractor320.grids`. -/
def VGG16Extractor320_grids : List Nat := [40, 20, 10, 5]

/-- Embedding of `VGG16Extractor320.__call__(self, x)`: run the parent
forward pass, take `ys[-1]`, apply `conv6_1` and `conv6_2` (each followed by
relu) and append the result. -/
def vgg16Extractor320_call (x : Feat) : List Feat :=
  let ys := vgg16RefineDet_call x
  let h := ys.getLastD Feat.input
  let h := Feat.relu (Feat.conv "conv6_1" h)
  let h := Feat.relu (Feat.conv "conv6_2" h)
  ys ++ [h]

/-- The feature map produced by the `conv1_1` ... `conv4_3` pipeline
(the map that `norm4` normalizes first). -/
def conv4_3_output (x : Feat) : Feat :=
  Feat.relu (Feat.conv "conv4_3" (Feat.relu (Feat.conv "conv4_2" (Feat.relu (Feat.conv "conv4_1"
    (Feat.maxPool2d 2 2 0 (Feat.relu (Feat.conv "conv3_3" (Feat.relu (Feat.conv "conv3_2"
    (Feat.relu (Feat.conv "conv3_1" (Feat.maxPool2d 2 2 0 (Feat.relu (Feat.conv "conv2_2"
    (Feat.relu (Feat.conv "conv2_1" (Feat.maxPool2d 2 2 0 (Feat.relu (Feat.conv "conv1_2"
    (Feat.relu (Feat.conv "conv1_1" x))))))))))))))))))))))

/-- The feature map produced after the `conv5_1` ... `conv5_3` pipeline
(the map that `norm4` normalizes second). -/
def conv5_3_output (x : Feat) : Feat :=
  Feat.relu (Feat.conv "conv5_3" (Feat.relu (Feat.conv "conv5_2" (Feat.relu (Feat.conv "conv5_1"
    (Feat.maxPool2d 2 2 0 (conv4_3_output x)))))))

/-- The feature map produced by `conv6` and `conv7` (the third map). -/
def conv7_output (x : Feat) : Feat :=
  Feat.relu (Feat.conv "conv7" (Feat.relu (Feat.conv "conv6"
    (Feat.maxPool2d 2 2 0 (conv5_3_output x)))))

/-- The feature map `VGG16Extractor320` appends (`conv6_1` then `conv6_2`
applied to the last parent map). -/
def conv6_2_output (x : Feat) : Feat :=
  Feat.relu (Feat.conv "conv6_2" (Feat.relu (Feat.conv "conv6_1" (conv7_output x))))

/-- Whether an outcome is a raised `ValueError`. -/
def isValueError {α : Type} : Except PyError α → Bool
  | Except.error (PyError.valueError _) => true
  | _ => false

/-- The spec's single validation rule, stated from its words: the call
raises an input-validation error exactly when `pretrained_model` is a named
weight set and either (a) the set fixes a class count, the caller supplies
one, and the two differ, or (b) neither the set nor the caller provides a
class count. -/
def spec_raises_value_error (n_fg_class : Option Nat) (pretrained_model : Option String)
    (models : Models) : Bool :=
  match pretrained_model with
  | none => false
  | some key =>
    match models.lookup key with
    | none => false
    | some entry =>
      (truthyNat n_fg_class && truthyNat entry.n_fg_class
        && !(n_fg_class == entry.n_fg_class)) ||
      (!truthyNat n_fg_class && !truthyNat entry.n_fg_class)

/-- C9: `VGG16RefineDet.__call__` returns exactly 3 feature maps — the
normalized conv4_3 output, the normalized conv5_3 output and the conv7
output, in that order, with the same `norm4` link applied to the first and
the second — and `VGG16Extractor320.__call__` extends this to exactly 4
maps, one per entry of `grids`, by appending the conv6_2 output. -/
theorem vgg16_forward_feature_maps (x : Feat) :
    vgg16RefineDet_call x =
      [Feat.normalize "norm4" (conv4_3_output x),
       Feat.normalize "norm4" (conv5_3_output x),
       conv7_output x] ∧
    (vgg16RefineDet_call x).length = 3 ∧
    vgg16Extractor320_call x = vgg16RefineDet_call x ++ [conv6_2_output x] ∧
    (vgg16Extractor320_call x).length = VGG16Extractor320_grids.length := by
  refine ⟨rfl, rfl, rfl, rfl⟩

/-- C3: loading a checkpoint into a model is permissive — the load always
succeeds, each model parameter is matched by name (taking the checkpoint's
array when the name is present, keeping its previous value when the name is
missing from the checkpoint), and checkpoint names with no matching model
parameter are ignored (the result has exactly the model's parameter
names). -/
theorem load_npz_permissive (ckpt obj : List (String × List Int)) :
    _load_npz ckpt obj =
      some (obj.map (fun p => (p.1, (ckpt.lookup p.1).getD p.2))) := by
  induction obj with
  | nil => rfl
  | cons p rest ih =>
    simp only [_load_npz, npzDeserializerLoad] at ih ⊢
    rw [ih]
    cases h : ckpt.lookup p.1 <;> simp [h]

/-- C4: `_check_pretrained_model` raises a `ValueError` exactly when (a) the
named weight set fixes a class count, the caller supplies one, and they
differ, or (b) neither the named weight set nor the caller provides a class
count; for every other combination of `n_fg_class` and `pretrained_model`
it returns normally. -/
theorem check_single_validation_rule (models : Models) (n : Option Nat) (pm : Option String) :
    isValueError (_check_pretrained_model n pm models).1
        = spec_raises_value_error n pm models ∧
    (_check_pretrained_model n pm models).1.isOk
        = !(spec_raises_value_error n pm models) := by
  cases pm with
  | none =>
    simp [_check_pretrained_model, spec_raises_value_error, isValueError, Except.isOk, Except.toBool]
  | some key =>
    cases hl : models.lookup key with
    | none =>
      cases hs : truthyStr (some key) <;>
        simp [_check_pretrained_model, spec_raises_value_error, isValueError, Except.isOk, Except.toBool,
          hl, hs]
    | some entry =>
      cases hn : truthyNat n with
      | false =>
        cases he : truthyNat entry.n_fg_class <;>
          simp [_check_pretrained_model, spec_raises_value_error, isValueError, Except.isOk, Except.toBool,
            hl, hn, he]
      | true =>
        cases he : truthyNat entry.n_fg_class with
        | false =>
          simp [_check_pretrained_model, spec_raises_value_error, isValueError, Except.isOk, Except.toBool,
            hl, hn, he]
        | true =>
          cases heq : n == entry.n_fg_class <;>
            simp [_check_pretrained_model, spec_raises_value_error, isValueError, Except.isOk, Except.toBool,
              hl, hn, he, heq]

/-- C1: for every model constructor, if `pretrained_model` is a `_models`
key whose entry fixes a class count and the caller supplies a class count,
the call succeeds exactly when the supplied count equals the table's count,
and otherwise raises a `ValueError`. -/
theorem named_set_class_count_must_match :
    ∀ models ∈ allModelTables, ∀ key entry, models.lookup key = some entry →
    ∀ c, entry.n_fg_class = some c → c ≠ 0 → ∀ n : Nat, n ≠ 0 →
    (((initModel models (some n) (some key)).1.isOk = true) ↔ n = c) ∧
    (n ≠ c → (initModel models (some n) (some key)).1 =
      Except.error (PyError.valueError ("n_fg_class should be " ++ toString c))) := by
  intro models _ key entry hl c hc hc0 n hn
  have htn : truthyNat (some n) = true := by simp [truthyNat, hn]
  have hte : truthyNat (some c) = true := by simp [truthyNat, hc0]
  by_cases hnc : n = c
  · subst hnc
    simp [initModel, _check_pretrained_model, hl, htn, hte, hc,
      Except.isOk, Except.toBool]
  · simp [initModel, _check_pretrained_model, hl, htn, hte, hc, hnc,
      Except.isOk, Except.toBool]

/-- Witness for C1 at `SSD300Plus`, key `voc0712` (count 20), supplied
count 3: the construction raises `ValueError: n_fg_class should be 20`. -/
theorem named_set_class_count_must_match_witness :
    (initModel ssd300plus_models (some 3) (some "voc0712")).1 =
      Except.error (PyError.valueError "n_fg_class should be 20") := by
  exact (named_set_class_count_must_match ssd300plus_models (by simp [allModelTables])
    "voc0712"
    ⟨some 20,
      "https://github.com/yuyu2172/share-weights/releases/download/0.0.3/ssd300_voc0712_2017_06_06.npz"⟩
    (by rfl) 20 rfl (by decide) 3 (by decide)).2 (by decide)

/-- C5: for every `_models` key accepted by `_check_pretrained_model`, the
weight file used is the download of that key's URL (and the download is the
only effect), and the resolved class count is the table's count when the
table fixes one, otherwise the caller's. -/
theorem named_set_uses_table_url_and_count :
    ∀ models ∈ allModelTables, ∀ key entry, models.lookup key = some entry →
    ∀ n res effs, _check_pretrained_model n (some key) models = (Except.ok res, effs) →
    res.2 = some (PathSrc.downloaded entry.url) ∧
    effs = [Effect.download entry.url] ∧
    res.1 = (if truthyNat entry.n_fg_class = true then entry.n_fg_class else n) := by
  intro models _ key entry hl n res effs hres
  cases htn : truthyNat n with
  | true =>
    cases hte : truthyNat entry.n_fg_class with
    | true =>
      cases heq : n == entry.n_fg_class with
      | true =>
        have hn : n = entry.n_fg_class := by simpa using heq
        simp [_check_pretrained_model, hl, htn, hte, heq] at hres
        obtain ⟨rfl, rfl⟩ := hres
        simp [hte, hn]
      | false =>
        simp [_check_pretrained_model, hl, htn, hte, heq] at hres
    | false =>
      simp [_check_pretrained_model, hl, htn, hte] at hres
      obtain ⟨rfl, rfl⟩ := hres
      simp [hte]
  | false =>
    cases hte : truthyNat entry.n_fg_class with
    | true =>
      simp [_check_pretrained_model, hl, htn, hte] at hres
      obtain ⟨rfl, rfl⟩ := hres
      simp [hte]
    | false =>
      simp [_check_pretrained_model, hl, htn, hte] at hres

/-- Witness for C5 at `SSD300Plus`, key `voc0712`, caller count 20. -/
theorem named_set_uses_table_url_and_count_witness :
    ((some 20 : Option Nat), some (PathSrc.downloaded
      "https://github.com/yuyu2172/share-weights/releases/download/0.0.3/ssd300_voc0712_2017_06_06.npz")).2
        = some (PathSrc.downloaded
      "https://github.com/yuyu2172/share-weights/releases/download/0.0.3/ssd300_voc0712_2017_06_06.npz") ∧
    [Effect.download
      "https://github.com/yuyu2172/share-weights/releases/download/0.0.3/ssd300_voc0712_2017_06_06.npz"]
        = [Effect.download
      "https://github.com/yuyu2172/share-weights/releases/download/0.0.3/ssd300_voc0712_2017_06_06.npz"] ∧
    ((some 20 : Option Nat), some (PathSrc.downloaded
      "https://github.com/yuyu2172/share-weights/releases/download/0.0.3/ssd300_voc0712_2017_06_06.npz")).1
        = (if truthyNat (some 20) = true then some 20 else some 20) :=
  named_set_uses_table_url_and_count ssd300plus_models (by simp [allModelTables]) "voc0712"
    ⟨some 20,
      "https://github.com/yuyu2172/share-weights/releases/download/0.0.3/ssd300_voc0712_2017_06_06.npz"⟩
    rfl (some 20)
    ((some 20 : Option Nat), some (PathSrc.downloaded
      "https://github.com/yuyu2172/share-weights/releases/download/0.0.3/ssd300_voc0712_2017_06_06.npz"))
    [Effect.download
      "https://github.com/yuyu2172/share-weights/releases/download/0.0.3/ssd300_voc0712_2017_06_06.npz"]
    (by decide)

/-- C6: a non-empty `pretrained_model` string that is not a `_models` key is
treated as a local file path: no class-count validation happens, the
caller's `n_fg_class` passes through unchanged, and the weights are loaded
from that path when construction proceeds. -/
theorem filepath_passthrough :
    ∀ models ∈ allModelTables, ∀ s, s ≠ "" → models.lookup s = none →
    (∀ n, _check_pretrained_model n (some s) models =
      (Except.ok (n, some (PathSrc.localFile s)), [])) ∧
    (∀ k : Nat, initModel models (some k) (some s) =
      (Except.ok ⟨k + 1, some (PathSrc.localFile s)⟩,
        [Effect.loadNpz (PathSrc.localFile s)])) := by
  intro models _ s hs hl
  have hts : truthyStr (some s) = true := by simp [truthyStr, hs]
  constructor
  · intro n
    simp [_check_pretrained_model, hl, hts]
  · intro k
    simp [initModel, _check_pretrained_model, hl, hts]

/-- Witness for C6 at `RefineDet320` with a local path and count 11. -/
theorem filepath_passthrough_witness :
    _check_pretrained_model (some 11) (some "my_weights.npz") refinedet320_models =
      (Except.ok (some 11, some (PathSrc.localFile "my_weights.npz")), []) ∧
    initModel refinedet320_models (some 11) (some "my_weights.npz") =
      (Except.ok ⟨11 + 1, some (PathSrc.localFile "my_weights.npz")⟩,
        [Effect.loadNpz (PathSrc.localFile "my_weights.npz")]) :=
  ⟨(filepath_passthrough refinedet320_models (by simp [allModelTables]) "my_weights.npz"
      (by decide) (by decide)).1 (some 11),
   (filepath_passthrough refinedet320_models (by simp [allModelTables]) "my_weights.npz"
      (by decide) (by decide)).2 11⟩

/-- C7: at the public interface, `n_fg_class = 0` behaves exactly like
`n_fg_class = None` for a named weight set: with an entry fixing a nonzero
count the check silently returns the table's count instead of raising a
mismatch error, and with an entry fixing no count it raises
`ValueError: n_fg_class must be specified`. -/
theorem zero_count_behaves_like_none :
    ∀ models ∈ allModelTables, ∀ key entry, models.lookup key = some entry →
    (_check_pretrained_model (some 0) (some key) models =
      _check_pretrained_model none (some key) models) ∧
    (∀ c, entry.n_fg_class = some c → c ≠ 0 →
      _check_pretrained_model (some 0) (some key) models =
        (Except.ok (some c, some (PathSrc.downloaded entry.url)),
          [Effect.download entry.url])) ∧
    (entry.n_fg_class = none →
      (_check_pretrained_model (some 0) (some key) models).1 =
        Except.error (PyError.valueError "n_fg_class must be specified")) := by
  intro models _ key entry hl
  refine ⟨?_, ?_, ?_⟩
  · simp [_check_pretrained_model, hl, truthyNat]
  · intro c hc hc0
    simp [_check_pretrained_model, hl, truthyNat, hc, hc0]
  · intro hc
    simp [_check_pretrained_model, hl, truthyNat, hc]

/-- Witness for C7: `voc0712` with count 0 resolves to 20 without raising;
`imagenet` with count 0 raises the must-be-specified error. -/
theorem zero_count_behaves_like_none_witness :
    (_check_pretrained_model (some 0) (some "voc0712") ssd300plus_models =
      _check_pretrained_model none (some "voc0712") ssd300plus_models) ∧
    (_check_pretrained_model (some 0) (some "voc0712") ssd300plus_models =
      (Except.ok (some 20, some (PathSrc.downloaded
        "https://github.com/yuyu2172/share-weights/releases/download/0.0.3/ssd300_voc0712_2017_06_06.npz")),
        [Effect.download
        "https://github.com/yuyu2172/share-weights/releases/download/0.0.3/ssd300_voc0712_2017_06_06.npz"])) ∧
    ((_check_pretrained_model (some 0) (some "imagenet") refinedet320_models).1 =
      Except.error (PyError.valueError "n_fg_class must be specified")) :=
  ⟨(zero_count_behaves_like_none ssd300plus_models (by simp [allModelTables]) "voc0712"
      ⟨some 20,
        "https://github.com/yuyu2172/share-weights/releases/download/0.0.3/ssd300_voc0712_2017_06_06.npz"⟩
      rfl).1,
   (zero_count_behaves_like_none ssd300plus_models (by simp [allModelTables]) "voc0712"
      ⟨some 20,
        "https://github.com/yuyu2172/share-weights/releases/download/0.0.3/ssd300_voc0712_2017_06_06.npz"⟩
      rfl).2.1 20 rfl (by decide),
   (zero_count_behaves_like_none refinedet320_models (by simp [allModelTables]) "imagenet"
      ⟨none,
        "https://github.com/fukatani/RefineDet_chainer/releases/download/0.0.0/VGG_ILSVRC_16_layers_fc_reduced.npz"⟩
      rfl).2.2 rfl⟩

/-- C8: whenever `_check_pretrained_model` raises a `ValueError`, it has
performed no effect — in particular no weight file was downloaded — and the
constructor call it aborts performs no effect either, so no weights are
loaded into any model on a failed call. -/
theorem valueerror_means_no_download_no_load :
    ∀ (models : Models) (n : Option Nat) (pm : Option String) (msg : String),
    (_check_pretrained_model n pm models).1 = Except.error (PyError.valueError msg) →
    (_check_pretrained_model n pm models).2 = [] ∧ (initModel models n pm).2 = [] := by
  intro models n pm msg herr
  cases pm with
  | none => simp [_check_pretrained_model] at herr
  | some key =>
    cases hl : models.lookup key with
    | none =>
      cases hts : truthyStr (some key) <;>
        simp [_check_pretrained_model, hl, hts] at herr
    | some entry =>
      cases htn : truthyNat n with
      | true =>
        cases hcond : (truthyNat entry.n_fg_class && !(n == entry.n_fg_class)) with
        | true => simp [_check_pretrained_model, initModel, hl, htn, hcond]
        | false => simp [_check_pretrained_model, hl, htn, hcond] at herr
      | false =>
        cases hte : truthyNat entry.n_fg_class with
        | false => simp [_check_pretrained_model, initModel, hl, htn, hte]
        | true => simp [_check_pretrained_model, hl, htn, hte] at herr

/-- Witness for C8 at `RefineDet320` with `imagenet` and no class count. -/
theorem valueerror_means_no_download_no_load_witness :
    (_check_pretrained_model none (some "imagenet") refinedet320_models).2 = [] ∧
    (initModel refinedet320_models none (some "imagenet")).2 = [] :=
  valueerror_means_no_download_no_load refinedet320_models none (some "imagenet")
    "n_fg_class must be specified" (by decide)

/-- C2 counterexample: with no caller-supplied count and `pretrained_model`
a plain file path (not a `_models` key), `_check_pretrained_model` returns
normally — no input-validation `ValueError` requiring `n_fg_class` is
raised — and the constructor then fails with a `TypeError` from computing
`None + 1`, which is not a `ValueError`. -/
theorem missing_count_filepath_no_valueerror :
    _check_pretrained_model none (some "my_weights.npz") refinedet320_models =
      (Except.ok (none, some (PathSrc.localFile "my_weights.npz")), []) ∧
    (initModel refinedet320_models none (some "my_weights.npz")).1 =
      Except.error PyError.typeError ∧
    isValueError (initModel refinedet320_models none (some "my_weights.npz")).1 = false := by
  refine ⟨by decide, by decide, by decide⟩

/-- C2 amended: with no caller-supplied count, the input-validation
`ValueError` (`n_fg_class must be specified`) is raised only when
`pretrained_model` is a `_models` key whose entry fixes no count; when
`pretrained_model` is a plain file path or `None`, `_check_pretrained_model`
returns normally and the constructor instead fails with a `TypeError` when
computing `n_fg_class + 1`. -/
theorem missing_count_failure_modes :
    ∀ models ∈ allModelTables,
    (∀ key entry, models.lookup key = some entry → entry.n_fg_class = none →
      (initModel models none (some key)).1 =
        Except.error (PyError.valueError "n_fg_class must be specified")) ∧
    (∀ s, s ≠ "" → models.lookup s = none →
      (initModel models none (some s)).1 = Except.error PyError.typeError) ∧
    (initModel models none none).1 = Except.error PyError.typeError := by
  intro models _
  refine ⟨?_, ?_, ?_⟩
  · intro key entry hl hc
    simp [initModel, _check_pretrained_model, hl, hc, truthyNat]
  · intro s hs hl
    have hts : truthyStr (some s) = true := by simp [truthyStr, hs]
    simp [initModel, _check_pretrained_model, hl, hts]
  · simp [initModel, _check_pretrained_model]

/-- Witness for the amended C2 at `RefineDet320`: `imagenet` raises the
must-be-specified `ValueError`; a local path or `None` yields `TypeError`. -/
theorem missing_count_failure_modes_witness :
    (initModel refinedet320_models none (some "imagenet")).1 =
      Except.error (PyError.valueError "n_fg_class must be specified") ∧
    (initModel refinedet320_models none (some "my_weights.npz")).1 =
      Except.error PyError.typeError ∧
    (initModel refinedet320_models none none).1 = Except.error PyError.typeError :=
  ⟨(missing_count_failure_modes refinedet320_models (by simp [allModelTables])).1 "imagenet"
      ⟨none,
        "https://github.com/fukatani/RefineDet_chainer/releases/download/0.0.0/VGG_ILSVRC_16_layers_fc_reduced.npz"⟩
      rfl rfl,
   (missing_count_failure_modes refinedet320_models (by simp [allModelTables])).2.1
      "my_weights.npz" (by decide) (by decide),
   (missing_count_failure_modes refinedet320_models (by simp [allModelTables])).2.2⟩
